import Mathlib

/-!
Verification of the TreeView backend (FastAPI + WebSocket fan-out layer).

The development shallowly embeds the Python source:
- `ConnectionManager` (src/backend/app/websockets/connection_manager.py):
  the registry is the Python list `active_connections`, modelled as a
  `List Chan`; `list.remove` removes the first occurrence and raises
  `ValueError` when the element is absent, modelled by `Except`.
- the per-channel receive loop (src/backend/app/api/routes/websockets.py):
  message dispatch over parsed JSON, modelled by `processMessage`, and
  the two exception handlers of the endpoint, modelled by
  `on_ws_disconnect` and `on_ws_error`.
- the REST route handlers (src/backend/app/api/routes/trees.py): modelled
  both as effect traces recording commit / rollback / broadcast order
  (namespace `RouteTrace`) and, for child generation, at the data level
  (`generate_children`).

Definitions come first, theorems afterwards.
-/

/-- A channel is one WebSocket connection; identity is the connection
instance itself, modelled as an opaque natural-number identifier. -/
abbrev Chan := Nat

namespace ConnectionManager

/-- `connect`: `self.active_connections.append(websocket)`
(connection_manager.py line 18; the transport `accept` has no registry
effect). -/
def connect (c : Chan) (s : List Chan) : List Chan :=
  s ++ [c]

/-- `disconnect`: `self.active_connections.remove(websocket)`
(connection_manager.py line 23). Python `list.remove` deletes the first
occurrence and raises `ValueError` when the element is not present; the
raise is modelled as `Except.error ()` and leaves the list unchanged. -/
def disconnect (c : Chan) (s : List Chan) : Except Unit (List Chan) :=
  if c ∈ s then Except.ok (s.erase c) else Except.error ()

/-- `get_connection_count`: `len(self.active_connections)`
(connection_manager.py line 58). -/
def get_connection_count (s : List Chan) : Nat :=
  s.length

/-- Result of one `broadcast` call: which channels the message was
delivered to (in attempt order) and the registry afterwards. -/
structure BroadcastResult where
  delivered : List Chan
  state : List Chan
deriving Repr, DecidableEq

/-- `broadcast` (connection_manager.py lines 31-54). The send to each
channel is abstracted by the oracle `sendOk` (`true` = `send_json`
returns, `false` = it raises). The for-loop attempts delivery to every
connection in list order, catching each failure and appending the failing
connection to `disconnected`; only after the full pass does the cleanup
loop remove each collected connection, guarded by a membership test. -/
def broadcast (sendOk : Chan → Bool) (s : List Chan) : BroadcastResult :=
  if s.isEmpty then ⟨[], s⟩
  else
    let delivered := s.filter sendOk
    let disconnected := s.filter (fun c => !(sendOk c))
    let cleaned := disconnected.foldl
      (fun st c => if c ∈ st then st.erase c else st) s
    ⟨delivered, cleaned⟩

/-- One call against the registry, as issued by the endpoints:
`connect` appends, `disconnect` removes (raising when absent). -/
inductive RegOp where
  | reg (c : Chan)
  | unreg (c : Chan)
deriving Repr, DecidableEq

/-- Run a sequence of registry calls from a given registry state.
A `disconnect` of an absent channel raises `ValueError`, aborting the
sequence (`none`). -/
def runOps : List RegOp → List Chan → Option (List Chan)
  | [], s => some s
  | RegOp.reg c :: rest, s => runOps rest (connect c s)
  | RegOp.unreg c :: rest, s =>
    match disconnect c s with
    | Except.ok s2 => runOps rest s2
    | Except.error _ => none

/-- Number of `register` calls in a sequence. -/
def numReg (ops : List RegOp) : Nat :=
  ops.countP (fun o => match o with | RegOp.reg _ => true | _ => false)

/-- Number of `unregister` calls in a sequence. -/
def numUnreg (ops : List RegOp) : Nat :=
  ops.countP (fun o => match o with | RegOp.unreg _ => true | _ => false)

end ConnectionManager

/-- A JSON value, as produced by `json.loads`: Python `None`, `bool`,
`int`, `str`, `list` and `dict` (dict keys are unique after parsing). -/
inductive Json where
  | null
  | bool (b : Bool)
  | num (n : Int)
  | str (s : String)
  | arr (xs : List Json)
  | obj (fields : List (String × Json))

/-- Python dict lookup `d.get(k)` (default `None`): the value stored at
key `k`, or JSON null when the key is absent. Keys of a parsed JSON dict
are unique, so first-match lookup is exact. -/
def dictGet (fields : List (String × Json)) (k : String) : Json :=
  match fields with
  | [] => Json.null
  | (k2, v) :: rest => if k2 == k then v else dictGet rest k

/-- Python `action == "ping"` where `action` is a parsed JSON value (or
`None`): true exactly for the string `"ping"`. -/
def isPing : Json → Bool
  | Json.str s => s == "ping"
  | _ => false

/-- Whether a JSON value is an object (a Python dict, the only values
with a `.get` method). -/
def Json.isObj : Json → Bool
  | Json.obj _ => true
  | _ => false

/-- The pong reply dict literal (websockets.py lines 47-53): note the
echoed timestamp is `message.get("timestamp", None)`, a TOP-LEVEL key
lookup on the client message, not a lookup inside its `data` field. -/
def pongMsg (ts : Json) : Json :=
  Json.obj [("action", Json.str "pong"),
            ("data", Json.obj [("message", Json.str "Pong!"),
                               ("timestamp", ts)])]

/-- The error reply dict literal (websockets.py lines 62-67 and 72-79). -/
def errorMsg (m : String) : Json :=
  Json.obj [("action", Json.str "error"),
            ("data", Json.obj [("message", Json.str m)])]

/-- Outcome of `json.loads(data)` on the received text: a parsed value,
or `json.JSONDecodeError`. -/
inductive ParseResult where
  | ok (j : Json)
  | jsonError

/-- Observable outcome of handling one received client message:
the replies sent back to the same channel (`send_personal_message`
calls, in order), whether `logger.warning` was called, and whether the
receive loop keeps running (`while True` reached again, i.e. no
exception escaped the message-level `try`). -/
structure HandleResult where
  sent : List Json
  warned : Bool
  remainsOpen : Bool

/-- One iteration of the message dispatch in `websocket_endpoint`
(websockets.py lines 39-80). `json.JSONDecodeError` is answered with an
"Invalid JSON format" error event. On a parsed dict, `message.get("action")`
is compared with `"ping"`; a ping is answered with a pong echoing the
top-level `timestamp` key; any other action only logs a warning. On a
parsed non-dict, `message.get` raises `AttributeError`, which the generic
`except Exception` clause answers with an "Error processing message"
error event. Every branch returns to the top of the loop. -/
def processMessage : ParseResult → HandleResult
  | ParseResult.jsonError => ⟨[errorMsg "Invalid JSON format"], false, true⟩
  | ParseResult.ok j =>
    match j with
    | Json.obj fields =>
      if isPing (dictGet fields "action") then
        ⟨[pongMsg (dictGet fields "timestamp")], false, true⟩
      else
        ⟨[], true, true⟩
    | _ => ⟨[errorMsg "Error processing message"], false, true⟩

/-- A generated child row: id, integer value, owning factory id
(src/backend/app/db/models/tree.py, `Child`). -/
structure ChildRec where
  cid : Nat
  value : Int
  factory_id : Nat
deriving Repr, DecidableEq

/-- A factory row: id, bounds, child count (src/backend/app/db/models/
tree.py, `Factory`; the name column is irrelevant to the claims). -/
structure FactoryRec where
  fid : Nat
  lower_bound : Int
  upper_bound : Int
  child_count : Int
deriving Repr, DecidableEq

/-- A broadcast event, as far as the modelled claims need its payload. -/
inductive Event where
  | client_disconnected (connections : Nat)
  | children_generated (factory_id : Nat) (children : List ChildRec)
deriving Repr, DecidableEq

namespace WsEndpoint

open ConnectionManager

/-- The `except WebSocketDisconnect` handler of `websocket_endpoint`
(websockets.py lines 82-94): `manager.disconnect(websocket)` (an
unguarded `list.remove`, so it raises if the channel is absent), then a
`client_disconnected` broadcast whose payload is the count AFTER the
removal. -/
def on_ws_disconnect (ws : Chan) (s : List Chan) :
    Except Unit (List Chan × Event) :=
  match disconnect ws s with
  | Except.ok s2 =>
    Except.ok (s2, Event.client_disconnected (get_connection_count s2))
  | Except.error e => Except.error e

/-- The `except Exception` handler of `websocket_endpoint`
(websockets.py lines 95-99): `if websocket in manager.active_connections:
manager.disconnect(websocket)` — a membership-guarded removal — and no
broadcast at all (second component: events broadcast, always `[]`). -/
def on_ws_error (ws : Chan) (s : List Chan) :
    Except Unit (List Chan) × List Event :=
  (if ws ∈ s then disconnect ws s else Except.ok s, [])

end WsEndpoint

namespace RouteTrace

/-- One observable effect of a REST route handler, in program order:
session mutations (`db.add` / `db.delete`), the commit attempt
(`db.commit` returning or raising), `db.refresh`, `db.rollback`, and a
`manager.broadcast` call tagged with its `action` string. -/
inductive Step where
  | addEntity
  | deleteEntity
  | commitSuccess
  | commitFailure
  | refresh
  | rollback
  | broadcastEv (action : String)
deriving Repr, DecidableEq

/-- A handler outcome: its effect trace and its HTTP result (`ok` for a
2xx response, `error code` for a raised `HTTPException`). -/
abbrev Outcome := List Step × Except Nat Unit

/-- `POST /trees` = `create_tree` (trees.py lines 21-52): add the tree,
commit, refresh, broadcast `tree_created`; on a commit failure the
`except Exception` clause rolls back and raises 500. `commitOk` is the
oracle for whether `db.commit()` returns. -/
def create_tree (commitOk : Bool) : Outcome :=
  if commitOk then
    ([Step.addEntity, Step.commitSuccess, Step.refresh,
      Step.broadcastEv "tree_created"], Except.ok ())
  else
    ([Step.addEntity, Step.commitFailure, Step.rollback], Except.error 500)

/-- `PUT /trees/{id}` = `update_tree` (trees.py lines 98-143): 404 when
the tree is not found (re-raised by `except HTTPException`, no rollback
in the handler and no session mutation committed); otherwise update in
memory, commit, refresh, broadcast `tree_updated`; commit failure rolls
back and raises 500. -/
def update_tree (found : Bool) (commitOk : Bool) : Outcome :=
  if !found then ([], Except.error 404)
  else if commitOk then
    ([Step.commitSuccess, Step.refresh, Step.broadcastEv "tree_updated"],
     Except.ok ())
  else
    ([Step.commitFailure, Step.rollback], Except.error 500)

/-- `DELETE /trees/{id}` = `delete_tree` (trees.py lines 145-182). -/
def delete_tree (found : Bool) (commitOk : Bool) : Outcome :=
  if !found then ([], Except.error 404)
  else if commitOk then
    ([Step.deleteEntity, Step.commitSuccess,
      Step.broadcastEv "tree_deleted"], Except.ok ())
  else
    ([Step.deleteEntity, Step.commitFailure, Step.rollback],
     Except.error 500)

/-- `POST /trees/{id}/factories` = `create_factory` (trees.py lines
185-254): 404 when the tree is not found; 400 when
`lower_bound >= upper_bound`; 400 when `child_count` is outside 1..15;
otherwise add the factory, commit, refresh, broadcast `factory_created`;
commit failure rolls back and raises 500. All three `HTTPException`
paths occur before any `db.add`. -/
def create_factory (found : Bool) (lb ub cc : Int) (commitOk : Bool) :
    Outcome :=
  if !found then ([], Except.error 404)
  else if lb ≥ ub then ([], Except.error 400)
  else if cc < 1 ∨ cc > 15 then ([], Except.error 400)
  else if commitOk then
    ([Step.addEntity, Step.commitSuccess, Step.refresh,
      Step.broadcastEv "factory_created"], Except.ok ())
  else
    ([Step.addEntity, Step.commitFailure, Step.rollback],
     Except.error 500)

/-- `PUT /factories/{id}` = `update_factory` (trees.py lines 256-327).
`lb`, `ub`, `cc` are the factory values after applying the requested
updates in memory; validation re-checks them before the commit. -/
def update_factory (found : Bool) (lb ub cc : Int) (commitOk : Bool) :
    Outcome :=
  if !found then ([], Except.error 404)
  else if lb ≥ ub then ([], Except.error 400)
  else if cc < 1 ∨ cc > 15 then ([], Except.error 400)
  else if commitOk then
    ([Step.commitSuccess, Step.refresh, Step.broadcastEv "factory_updated"],
     Except.ok ())
  else
    ([Step.commitFailure, Step.rollback], Except.error 500)

/-- `DELETE /factories/{id}` = `delete_factory` (trees.py lines
329-369). -/
def delete_factory (found : Bool) (commitOk : Bool) : Outcome :=
  if !found then ([], Except.error 404)
  else if commitOk then
    ([Step.deleteEntity, Step.commitSuccess,
      Step.broadcastEv "factory_deleted"], Except.ok ())
  else
    ([Step.deleteEntity, Step.commitFailure, Step.rollback],
     Except.error 500)

/-- `POST /factories/{id}/generate` = `generate_children` (trees.py
lines 371-439): 404 when the factory is not found; otherwise delete the
existing children, add the new ones, commit, refresh, broadcast
`children_generated`; commit failure rolls back and raises 500. -/
def generate_children (found : Bool) (commitOk : Bool) : Outcome :=
  if !found then ([], Except.error 404)
  else if commitOk then
    ([Step.deleteEntity, Step.addEntity, Step.commitSuccess, Step.refresh,
      Step.broadcastEv "children_generated"], Except.ok ())
  else
    ([Step.deleteEntity, Step.addEntity, Step.commitFailure, Step.rollback],
     Except.error 500)

/-- The `get_db` dependency wrapper (database.py lines 63-71): after the
handler returns normally the session is committed once more; when the
handler raises (any `HTTPException` included) the session is rolled
back. -/
def withGetDb (h : Outcome) : Outcome :=
  (h.1 ++ (match h.2 with
           | Except.ok _ => [Step.commitSuccess]
           | Except.error _ => [Step.rollback]),
   h.2)

/-- Whether a step is a `manager.broadcast` call. -/
def stepIsBroadcast : Step → Bool
  | Step.broadcastEv _ => true
  | _ => false

/-- Every broadcast in the trace is preceded by a successful commit
(first argument: whether a commit has already succeeded). -/
def bcastAfterCommit : Bool → List Step → Bool
  | _, [] => true
  | _, Step.commitSuccess :: r => bcastAfterCommit true r
  | seen, s :: r => (!stepIsBroadcast s || seen) && bcastAfterCommit seen r

/-- If the commit failed, the handler rolled back and broadcast
nothing. -/
def failureRolledBack (t : List Step) : Bool :=
  !(t.contains Step.commitFailure) ||
    (t.contains Step.rollback && t.all (fun s => !stepIsBroadcast s))

/-- If the handler raised, nothing was broadcast and the session ended
rolled back (by the handler or the `get_db` wrapper). -/
def errorClean (h : Outcome) : Bool :=
  match h.2 with
  | Except.ok _ => true
  | Except.error _ =>
    h.1.contains Step.rollback && h.1.all (fun s => !stepIsBroadcast s)

/-- Combined per-handler soundness: broadcasts only after a successful
commit, commit failures rolled back without a broadcast, error
responses without a broadcast and with a rollback. -/
def traceSound (h : Outcome) : Bool :=
  bcastAfterCommit false h.1 && failureRolledBack h.1 && errorClean h

end RouteTrace

/-- Children of factory `fid` in the children table: the rows the ORM
relationship `factory.children` resolves to after a refresh. -/
def childrenOf (fid : Nat) (table : List ChildRec) : List ChildRec :=
  table.filter (fun c => c.factory_id == fid)

/-- Data-level model of `generate_children` (trees.py lines 388-426 and
the identical service routine tree_service.py lines 251-312), acting on
the children table. `rand i` is the `i`-th value returned by
`random.randint(lower_bound, upper_bound)` and `freshId i` the `i`-th
generated primary key. The handler deletes every existing child of the
factory, adds `child_count` fresh children (Python `range` is empty for
a non-positive count), commits, and broadcasts one `children_generated`
event listing the refreshed `factory.children`. Returns the new table
and the broadcast events. -/
def generate_children (rand : Nat → Int) (freshId : Nat → Nat)
    (f : FactoryRec) (table : List ChildRec) :
    List ChildRec × List Event :=
  let remaining := table.filter (fun c => !(c.factory_id == f.fid))
  let newChildren := (List.range f.child_count.toNat).map
    (fun i => ChildRec.mk (freshId i) (rand i) f.fid)
  let table2 := remaining ++ newChildren
  (table2, [Event.children_generated f.fid (childrenOf f.fid table2)])

namespace ConnectionManager

theorem runOps_length (ops : List RegOp) (s0 s : List Chan)
    (h : runOps ops s0 = some s) :
    s.length + numUnreg ops = s0.length + numReg ops := by
  induction ops generalizing s0 with
  | nil =>
    simp only [runOps, Option.some.injEq] at h
    subst h
    simp [numReg, numUnreg]
  | cons op rest ih =>
    cases op with
    | reg c =>
      simp only [runOps] at h
      have hrec := ih (connect c s0) h
      simp [numReg, numUnreg, List.countP_cons, connect] at hrec ⊢
      omega
    | unreg c =>
      simp only [runOps, disconnect] at h
      by_cases hc : c ∈ s0
      · rw [if_pos hc] at h
        have hrec := ih (s0.erase c) h
        have hlen := List.length_erase_of_mem hc
        have hpos : 1 ≤ s0.length := List.length_pos.mpr (List.ne_nil_of_mem hc)
        simp [numReg, numUnreg, List.countP_cons] at hrec ⊢
        omega
      · rw [if_neg hc] at h
        exact absurd h (by simp)

theorem filter_eq_single (s : List Chan) (C : Chan) (p : Chan → Bool)
    (hnd : s.Nodup) (hmem : C ∈ s) (hp : ∀ c, p c = true ↔ c = C) :
    s.filter p = [C] := by
  induction s with
  | nil => cases hmem
  | cons a rest ih =>
    rcases List.mem_cons.mp hmem with rfl | hmC
    · have hrest : rest.filter p = [] := by
        refine List.filter_eq_nil_iff.mpr (fun b hb => ?_)
        intro hpb
        exact (List.nodup_cons.mp hnd).1 (((hp b).mp hpb) ▸ hb)
      simp [List.filter_cons, (hp C).mpr rfl, hrest]
    · have haC : a ≠ C := fun h => (List.nodup_cons.mp hnd).1 (h ▸ hmC)
      have hpa : p a = false := by
        rcases hpa : p a with _ | _
        · rfl
        · exact absurd ((hp a).mp hpa) haC
      simp [List.filter_cons, hpa]
      exact ih (List.nodup_cons.mp hnd).2 hmC

/-- Claim C1: when delivery of an event fails on exactly one channel `C`
of a duplicate-free registry, `broadcast` still delivers to every other
channel (including those iterated after `C`, since eviction happens only
after the full pass), returns without raising (it is a total function of
the send oracle), and afterwards `C` is no longer a member and the count
has decreased by exactly one: the new registry is exactly the old one
with `C` erased. -/
theorem broadcast_single_failure (sendOk : Chan → Bool) (s : List Chan)
    (C : Chan) (hnd : s.Nodup) (hmem : C ∈ s)
    (hfail : ∀ c, sendOk c = false ↔ c = C) :
    (∀ c ∈ s, c ≠ C → c ∈ (broadcast sendOk s).delivered) ∧
    C ∉ (broadcast sendOk s).delivered ∧
    C ∉ (broadcast sendOk s).state ∧
    (broadcast sendOk s).state.length + 1 = s.length ∧
    (broadcast sendOk s).state = s.erase C := by
  have hsne : s ≠ [] := List.ne_nil_of_mem hmem
  have hemp : ¬ (s.isEmpty = true) := by
    simpa [List.isEmpty_iff] using hsne
  have hdisc : s.filter (fun c => !(sendOk c)) = [C] := by
    refine filter_eq_single s C _ hnd hmem (fun c => ?_)
    rcases hs : sendOk c with _ | _
    · simpa [hs] using (hfail c).mp hs
    · constructor
      · intro hcon; simp [hs] at hcon
      · intro rfl'
        have := (hfail c).mpr rfl'
        rw [this] at hs
        cases hs
  have hbr : broadcast sendOk s =
      ⟨s.filter sendOk, if C ∈ s then s.erase C else s⟩ := by
    rw [broadcast, if_neg hemp]
    simp only [hdisc, List.foldl_cons, List.foldl_nil]
  rw [hbr, if_pos hmem]
  refine ⟨?_, ?_, hnd.not_mem_erase, ?_, rfl⟩
  · intro c hc hcC
    refine List.mem_filter.mpr ⟨hc, ?_⟩
    rcases hs : sendOk c with _ | _
    · exact absurd ((hfail c).mp hs) hcC
    · rfl
  · intro hcon
    have := (List.mem_filter.mp hcon).2
    rw [(hfail C).mpr rfl] at this
    cases this
  · have h1 := List.length_erase_of_mem hmem
    have hpos : 1 ≤ s.length := List.length_pos.mpr hsne
    show (s.erase C).length + 1 = s.length
    omega

/-- Witness for C1: registry `[0, 1, 2]`, the send to channel `1` fails,
channels `0` and `2` still receive the event, `1` is evicted and the
count drops from 3 to 2. -/
theorem broadcast_single_failure_witness :
    (0 : Chan) ∈ (broadcast (fun c => c != 1) [0, 1, 2]).delivered ∧
    (2 : Chan) ∈ (broadcast (fun c => c != 1) [0, 1, 2]).delivered ∧
    (1 : Chan) ∉ (broadcast (fun c => c != 1) [0, 1, 2]).state ∧
    (broadcast (fun c => c != 1) [0, 1, 2]).state.length + 1 = 3 := by
  have h := broadcast_single_failure (fun c => c != 1) [0, 1, 2] 1
    (by decide) (by decide) (fun c => by simp)
  exact ⟨h.1 0 (by decide) (by decide), h.1 2 (by decide) (by decide),
    h.2.2.1, h.2.2.2.1⟩

/-- Counterexample to claim C2 as stated: `disconnect` is Python
`list.remove`, which raises `ValueError` on an absent element, so the
second of two consecutive `disconnect` calls on the same channel raises
instead of being a safe no-op. -/
theorem unregister_not_idempotent_cex :
    disconnect 3 (connect 3 []) = Except.ok [] ∧
    disconnect 3 [] = Except.error () := by
  constructor <;> rfl

/-- Claim C2 (amended): calling `disconnect` on a channel that is not a
member of the registry raises `ValueError` (it is not the no-op the spec
claims); the raise happens before any mutation, so the registry list is
unchanged by the failed call. -/
theorem disconnect_absent_raises (c : Chan) (s : List Chan) (h : c ∉ s) :
    disconnect c s = Except.error () := by
  simp [disconnect, h]

/-- Witness for the amended C2 at channel `5` and registry `[1, 2]`. -/
theorem disconnect_absent_raises_witness :
    disconnect 5 [1, 2] = Except.error () :=
  disconnect_absent_raises 5 [1, 2] (by decide)

/-- Claim C8: for any sequence of `register`/`unregister` calls that runs
to completion from the empty registry, `get_connection_count` equals the
number of register calls minus the number of unregister calls (each
completed unregister removed one previously registered channel), and is
never negative: the unregister calls never outnumber the register calls. -/
theorem count_matches_registrations (ops : List RegOp) (s : List Chan)
    (h : runOps ops [] = some s) :
    get_connection_count s + numUnreg ops = numReg ops ∧
    numUnreg ops ≤ numReg ops := by
  have hlen := runOps_length ops [] s h
  simp only [List.length_nil, Nat.zero_add] at hlen
  exact ⟨hlen, by omega⟩

/-- Witness for C8: register channels 1 and 2, unregister 1; the run
completes with registry `[2]` and count `1 = 2 - 1`. -/
theorem count_matches_registrations_witness :
    runOps [RegOp.reg 1, RegOp.reg 2, RegOp.unreg 1] [] = some [2] ∧
    get_connection_count [2]
        + numUnreg [RegOp.reg 1, RegOp.reg 2, RegOp.unreg 1]
      = numReg [RegOp.reg 1, RegOp.reg 2, RegOp.unreg 1] :=
  ⟨by decide, (count_matches_registrations _ [2] (by decide)).1⟩

end ConnectionManager

/-- Counterexample to claim C3 as stated: on a well-formed message whose
action is `"subscribe"` (neither `"ping"` nor a disconnect), the handler
sends NO message back at all — in particular not the claimed
`error` event `Unrecognized action: subscribe` — it only logs a
warning. -/
theorem unrecognized_action_cex :
    (processMessage (ParseResult.ok (Json.obj
      [("action", Json.str "subscribe")]))).sent = [] ∧
    (processMessage (ParseResult.ok (Json.obj
      [("action", Json.str "subscribe")]))).sent.length = 0 := by
  constructor <;> rfl

/-- Claim C3 (amended): for every well-formed JSON object message whose
action is not `"ping"`, the handler logs a warning, sends NOTHING back
to the channel (the source has no `send_personal_message` call in the
unrecognized-action branch), and the connection remains open. -/
theorem unrecognized_action_warn_only (fields : List (String × Json))
    (h : isPing (dictGet fields "action") = false) :
    processMessage (ParseResult.ok (Json.obj fields)) = ⟨[], true, true⟩ := by
  simp [processMessage, h]

/-- Witness for the amended C3 at action `"foo"`. -/
theorem unrecognized_action_warn_only_witness :
    processMessage (ParseResult.ok (Json.obj
      [("action", Json.str "foo")])) = ⟨[], true, true⟩ :=
  unrecognized_action_warn_only [("action", Json.str "foo")] (by decide)

/-- Counterexample to claim C4 as stated: for the client message
`{"action": "ping", "data": {"timestamp": "T1"}}` the reply is one pong
whose timestamp is NULL — `message.get("timestamp", None)` reads the
top level of the message, where no `timestamp` key exists — not the
claimed echo of `"T1"` from the `data` field. -/
theorem ping_data_timestamp_cex :
    (processMessage (ParseResult.ok (Json.obj
      [("action", Json.str "ping"),
       ("data", Json.obj [("timestamp", Json.str "T1")])]))).sent
      = [pongMsg Json.null] ∧
    pongMsg Json.null ≠ pongMsg (Json.str "T1") := by
  refine ⟨rfl, ?_⟩
  intro h
  simp [pongMsg] at h

/-- Claim C4 (amended): a ping message receives exactly one reply
`{"action": "pong", "data": {"message": "Pong!", "timestamp": t}}`
where `t` is the TOP-LEVEL `timestamp` field of the client message
(JSON null when the timestamp only sits inside `data`, as in the claim
scenario), and the connection remains open. -/
theorem ping_pong_reply (fields : List (String × Json))
    (h : isPing (dictGet fields "action") = true) :
    processMessage (ParseResult.ok (Json.obj fields)) =
      ⟨[pongMsg (dictGet fields "timestamp")], false, true⟩ := by
  simp [processMessage, h]

/-- Witness for the amended C4: a ping carrying a nested
`data.timestamp` of `"T2"` is answered by one pong with a null
timestamp; a ping carrying a top-level timestamp is echoed. -/
theorem ping_pong_reply_witness :
    processMessage (ParseResult.ok (Json.obj
      [("action", Json.str "ping"),
       ("data", Json.obj [("timestamp", Json.str "T2")])])) =
      ⟨[pongMsg Json.null], false, true⟩ :=
  ping_pong_reply
    [("action", Json.str "ping"),
     ("data", Json.obj [("timestamp", Json.str "T2")])] (by decide)

/-- Claim C9: a message that parses as JSON but is not an object (bare
number, string, array, boolean or null) makes `message.get("action")`
raise `AttributeError`, which the generic handler answers with exactly
one `error` event `"Error processing message"` — not
`"Invalid JSON format"` — and the connection remains open. -/
theorem non_object_error_reply (j : Json) (h : j.isObj = false) :
    processMessage (ParseResult.ok j) =
      ⟨[errorMsg "Error processing message"], false, true⟩ := by
  cases j <;> first | rfl | (exfalso; simp [Json.isObj] at h)

/-- Witness for C9 at the bare number `5`. -/
theorem non_object_error_reply_witness :
    processMessage (ParseResult.ok (Json.num 5)) =
      ⟨[errorMsg "Error processing message"], false, true⟩ ∧
    errorMsg "Error processing message" ≠ errorMsg "Invalid JSON format" := by
  refine ⟨non_object_error_reply (Json.num 5) rfl, ?_⟩
  intro h
  simp [errorMsg] at h

namespace WsEndpoint

open ConnectionManager

/-- Claim C10: the generic-exception exit of the receive loop removes
the channel only when it is still a member (the guard makes the removal
total: the result is always `ok`) and broadcasts nothing; the
`WebSocketDisconnect` exit instead unregisters unconditionally (raising
when the channel is absent) and then broadcasts `client_disconnected`
carrying the count taken after the removal. -/
theorem error_exit_guarded_no_broadcast (ws : Chan) (s : List Chan) :
    on_ws_error ws s =
      (Except.ok (if ws ∈ s then s.erase ws else s), []) ∧
    on_ws_disconnect ws s =
      (if ws ∈ s then
        Except.ok (s.erase ws,
          Event.client_disconnected (s.erase ws).length)
      else Except.error ()) := by
  constructor
  · rw [on_ws_error, disconnect]
    by_cases h : ws ∈ s <;> simp [h]
  · rw [on_ws_disconnect, disconnect]
    by_cases h : ws ∈ s <;> simp [h, get_connection_count]

end WsEndpoint

namespace RouteTrace

/-- Claim C5: in every mutating route handler (create/update/delete tree
or factory, generate children), composed with the `get_db` session
wrapper, every broadcast in the effect trace is preceded by a successful
commit; when the commit fails the handler rolls back and broadcasts
nothing; and every error response (validation, not-found, or commit
failure) carries no broadcast and ends with the session rolled back. -/
theorem broadcast_only_after_commit (found commitOk : Bool)
    (lb ub cc : Int) :
    traceSound (withGetDb (create_tree commitOk)) = true ∧
    traceSound (withGetDb (update_tree found commitOk)) = true ∧
    traceSound (withGetDb (delete_tree found commitOk)) = true ∧
    traceSound (withGetDb (create_factory found lb ub cc commitOk)) = true ∧
    traceSound (withGetDb (update_factory found lb ub cc commitOk)) = true ∧
    traceSound (withGetDb (delete_factory found commitOk)) = true ∧
    traceSound (withGetDb (generate_children found commitOk)) = true := by
  refine ⟨?_, ?_, ?_, ?_, ?_, ?_, ?_⟩ <;>
    cases found <;> cases commitOk <;>
      simp only [create_tree, update_tree, delete_tree, create_factory,
        update_factory, delete_factory, generate_children] <;>
      split_ifs <;> decide

/-- Claim C7: a factory-creation request against an
existing tree with invalid bounds (`lower_bound >= upper_bound`) or an
out-of-range `child_count` is rejected with HTTP 400, its trace is
empty — so nothing is added to the session, nothing is committed, and
zero broadcast events are sent. -/
theorem create_factory_invalid_rejected (lb ub cc : Int) (commitOk : Bool)
    (hinv : lb ≥ ub ∨ cc < 1 ∨ cc > 15) :
    (create_factory true lb ub cc commitOk).2 = Except.error 400 ∧
    (create_factory true lb ub cc commitOk).1 = [] ∧
    (create_factory true lb ub cc commitOk).1.all
      (fun s => !stepIsBroadcast s) = true ∧
    Step.addEntity ∉ (create_factory true lb ub cc commitOk).1 ∧
    Step.commitSuccess ∉ (create_factory true lb ub cc commitOk).1 := by
  have h400 : create_factory true lb ub cc commitOk = ([], Except.error 400) := by
    rw [create_factory]
    rw [if_neg (by simp)]
    split_ifs with h1 h2 h3 <;>
      first
        | rfl
        | (exfalso; rcases hinv with h | h | h <;> simp_all)
  rw [h400]
  refine ⟨rfl, rfl, rfl, by simp, by simp⟩

/-- Witness for C7 at the spec scenario `lower_bound = 10,
upper_bound = 5, child_count = 5`. -/
theorem create_factory_invalid_rejected_witness :
    (create_factory true 10 5 5 true).2 = Except.error 400 ∧
    (create_factory true 10 5 5 true).1 = [] :=
  ⟨(create_factory_invalid_rejected 10 5 5 true (Or.inl (by decide))).1,
   (create_factory_invalid_rejected 10 5 5 true (Or.inl (by decide))).2.1⟩

end RouteTrace

/-- Claim C6: generating children for a factory with
`lower_bound < upper_bound` and `1 ≤ child_count ≤ 15` leaves the
factory with exactly `child_count` children — the previously existing
children are deleted, not accumulated: the resulting children do not
depend on the prior table contents — each child value within
`[lower_bound, upper_bound]` (both ends inclusive, the `random.randint`
contract given as the oracle hypothesis `hr`), and broadcasts exactly
one `children_generated` event listing exactly those children. -/
theorem generate_children_spec (rand : Nat → Int) (freshId : Nat → Nat)
    (f : FactoryRec) (table : List ChildRec)
    (hb : f.lower_bound < f.upper_bound)
    (hc1 : 1 ≤ f.child_count) (hc2 : f.child_count ≤ 15)
    (hr : ∀ i, f.lower_bound ≤ rand i ∧ rand i ≤ f.upper_bound) :
    ((childrenOf f.fid (generate_children rand freshId f table).1).length : Int)
        = f.child_count ∧
    (∀ c ∈ childrenOf f.fid (generate_children rand freshId f table).1,
        f.lower_bound ≤ c.value ∧ c.value ≤ f.upper_bound) ∧
    (generate_children rand freshId f table).2 =
      [Event.children_generated f.fid
        (childrenOf f.fid (generate_children rand freshId f table).1)] ∧
    childrenOf f.fid (generate_children rand freshId f table).1 =
      childrenOf f.fid (generate_children rand freshId f []).1 := by
  have hkey : ∀ tb : List ChildRec,
      childrenOf f.fid (generate_children rand freshId f tb).1 =
        (List.range f.child_count.toNat).map
          (fun i => ChildRec.mk (freshId i) (rand i) f.fid) := by
    intro tb
    unfold generate_children childrenOf
    simp only [List.filter_append]
    have h1 : (tb.filter (fun c => !(c.factory_id == f.fid))).filter
        (fun c => c.factory_id == f.fid) = [] := by
      refine List.filter_eq_nil_iff.mpr (fun c hc => ?_)
      have h2 := (List.mem_filter.mp hc).2
      simp only [Bool.not_eq_true'] at h2
      simp [h2]
    have h3 : ((List.range f.child_count.toNat).map
        (fun i => ChildRec.mk (freshId i) (rand i) f.fid)).filter
          (fun c => c.factory_id == f.fid) =
        (List.range f.child_count.toNat).map
          (fun i => ChildRec.mk (freshId i) (rand i) f.fid) := by
      refine List.filter_eq_self.mpr (fun c hc => ?_)
      rcases List.mem_map.mp hc with ⟨i, _, rfl⟩
      simp
    rw [h1, h3, List.nil_append]
  refine ⟨?_, ?_, rfl, ?_⟩
  · rw [hkey table, List.length_map, List.length_range]
    exact_mod_cast Int.toNat_of_nonneg (by omega)
  · intro c hc
    rw [hkey table] at hc
    rcases List.mem_map.mp hc with ⟨i, _, rfl⟩
    exact hr i
  · rw [hkey table, hkey []]

/-- Witness for C6: factory 7 with bounds `[1, 10]` and
`child_count = 5`, a draw oracle always answering 3, over a table
already holding one child of this factory: afterwards the factory has
exactly 5 children and exactly one `children_generated` event lists
them. -/
theorem generate_children_spec_witness :
    ((childrenOf 7 (generate_children (fun _ => 3) (fun i => i)
        (FactoryRec.mk 7 1 10 5) [ChildRec.mk 99 42 7]).1).length : Int) = 5 ∧
    (generate_children (fun _ => 3) (fun i => i)
        (FactoryRec.mk 7 1 10 5) [ChildRec.mk 99 42 7]).2 =
      [Event.children_generated 7
        (childrenOf 7 (generate_children (fun _ => 3) (fun i => i)
          (FactoryRec.mk 7 1 10 5) [ChildRec.mk 99 42 7]).1)] := by
  have h := generate_children_spec (fun _ => 3) (fun i => i)
    (FactoryRec.mk 7 1 10 5) [ChildRec.mk 99 42 7]
    (by decide) (by decide) (by decide) (fun i => ⟨by norm_num, by norm_num⟩)
  exact ⟨h.1, h.2.2.1⟩
